import Mathlib

set_option linter.unnecessarySimpa false
set_option linter.unusedSectionVars false
set_option linter.unnecessarySeqFocus false

/-!
Verification of the Biscuit cache engine (src/src/biscuit.js) against its
natural-language specification.

The engine is embedded shallowly: the in-memory jar, access-time index,
refresher bindings, refresh generations, refresh timers, the persistent
store and the broadcast log are all carried in one explicit state record,
and every engine operation becomes a pure function on that state.
JavaScript Map objects become insertion-ordered association lists
(Map.set updates an existing binding in place, Map.delete removes it);
Date.now() becomes an explicit clock field that only advances between
operations (the JS engine is single-threaded between suspension points);
asynchronous suspension points (awaiting the store, the mutator, or a
refresher fetch) are made explicit by splitting the affected operation
into phases, so interleavings can be expressed by composing phases of
different operations.  Refresher functions themselves are opaque: they
are carried as numeric tokens, and the value a fetch resolves with (or
its failure) is supplied as an explicit argument to the post-fetch phase.
IndexedDB, WebCrypto and BroadcastChannel are external collaborators:
the store is modelled as the record map the idb helpers maintain (no
encryption: the model corresponds to an engine created without a
secret), and broadcastChange is modelled by appending to a log of sent
messages.
-/

namespace Biscuit

/-- A jar entry: the source stores objects of shape
value / expiry / ttl / fetcherId (the redundant key field of the JS
object is the map key here).  Entries created by the public set() carry
no fetcherId field (set never writes one onto the jar entry); entries
created by init or handleRemoteUpdate may.  The same shape is used for
persisted store records and for the entry payload of broadcast
messages, which carry exactly these four fields. -/
structure Entry (V : Type) where
  value : V
  expiry : Nat
  ttl : Option Nat
  fetcherId : Option String
  deriving DecidableEq, Repr

/-- The fetcher argument accepted by set(): null, a bare function, or a
record with fn and id fields (as built by mutate() and refresh(), where
the id can be the undefined fetcherId of the current entry). -/
inductive FetcherArg
  | noF : FetcherArg
  | funF (tok : Nat) : FetcherArg
  | objF (tok : Nat) (id : Option String) : FetcherArg
  deriving DecidableEq, Repr

/-- A broadcast message: broadcastChange(key, entry) posts the object
with fields key and entry; entry is null for deletions, and clear()
broadcasts (null, null). -/
abbrev Msg (V : Type) := Option String × Option (Entry V)

/-- The whole mutable state of one engine instance: every Map closed
over by createBiscuit, the destroyed flag, the online flag, the GC
timer, the clock, plus the external persistent store (record map and a
counter of store writes/deletes) and the log of broadcast messages. -/
structure St (V : Type) where
  jar : List (String × Entry V)
  access : List (String × Nat)
  refreshers : List (String × Nat)
  fetcherRegistry : List (String × Nat)
  gens : List (String × Nat)
  timers : List (String × (Nat × Nat))
  pending : List (String × Option Nat)
  store : List (String × Entry V)
  storeOps : Nat
  sent : List (Msg V)
  notifies : Nat
  subscribers : Nat
  gcTimer : Bool
  destroyed : Bool
  online : Bool
  now : Nat
  maxSize : Option Nat
  deriving DecidableEq, Repr

/-- Map.get: first binding for the key, if any. -/
def mget {α : Type} (m : List (String × α)) (k : String) : Option α :=
  (m.find? (fun p => p.1 = k)).map (fun p => p.2)

/-- Map.set: update the existing binding in place (JS Map.set keeps the
insertion position of an existing key), otherwise append. -/
def mset {α : Type} (m : List (String × α)) (k : String) (v : α) :
    List (String × α) :=
  if m.any (fun p => p.1 = k) then
    m.map (fun p => if p.1 = k then (k, v) else p)
  else m ++ [(k, v)]

/-- Map.delete. -/
def mdel {α : Type} (m : List (String × α)) (k : String) :
    List (String × α) :=
  m.filter (fun p => ¬ p.1 = k)

/-- JS x || d for a number-or-null field: both null and 0 are falsy. -/
def jsOr (x : Option Nat) (d : Nat) : Nat :=
  match x with
  | some n => if n = 0 then d else n
  | none => d

/-- JS n || d for a plain number: 0 is falsy. -/
def jsOrNat (n : Nat) (d : Nat) : Nat := if n = 0 then d else n

/-- JS x || null for a number-or-null field. -/
def jsNullNat (x : Option Nat) : Option Nat :=
  match x with
  | some n => if n = 0 then none else some n
  | none => none

/-- JS x || null for a string-or-null field: the empty string is falsy. -/
def jsNullStr (x : Option String) : Option String :=
  match x with
  | some i => if i = "" then none else some i
  | none => none

/-- Truthiness of an optional string id. -/
def idTruthy (x : Option String) : Bool :=
  match x with
  | some i => i ≠ ""
  | none => false

/-- The default TTL, 5 * 60 * 1000 ms, used throughout the source. -/
def defaultTTL : Nat := 300000

/-- Stable insertion into a sorted list: the new element goes after
every element strictly below it, so earlier elements precede equal
later ones. -/
def insertSorted {α : Type} (lt : α → α → Bool) (x : α) :
    List α → List α
  | [] => [x]
  | y :: ys => if lt y x then y :: insertSorted lt x ys else x :: y :: ys

/-- A stable sort (insertion sort), modelling JS Array.prototype.sort
with a numeric comparator: lt a b holds when the comparator orders a
strictly before b; ties keep their original order, as the ECMAScript
specification requires of sort. -/
def sortBy {α : Type} (lt : α → α → Bool) : List α → List α
  | [] => []
  | x :: xs => insertSorted lt x (sortBy lt xs)


section Engine

variable {V : Type} [DecidableEq V]

/-- The new access index written by touchKey: record the access time,
then, when a maxSize is configured and the index has grown past
max(maxSize * 2, 1000), keep only the maxSize * 2 most recent
timestamps (the source sorts newest-first — a stable sort — and
re-inserts the kept prefix in that order). -/
def touchAccess (s : St V) (k : String) : List (String × Nat) :=
  let acc := mset s.access k s.now
  match s.maxSize with
  | none => acc
  | some ms =>
    if acc.length > max (ms * 2) 1000 then
      (sortBy (fun a b => b.2 < a.2) acc).take (ms * 2)
    else acc

/-- touchKey: update the access-time index for a key (it touches nothing
else in the state). -/
def touchKey (s : St V) (k : String) : St V :=
  { s with access := touchAccess s k }

/-- scheduleRefresh(key, expiry): abort when the entry is gone or the
instance is offline; otherwise bump the key's generation, cancel any
pending timer, and either fire an immediate refresh when the computed
refresh time is already due (modelled by queueing the pending call
refresh(key, gen), since the source fires it without awaiting) or set a
timer carrying the captured generation. -/
def scheduleRefresh (s : St V) (k : String) (expiry : Nat) : St V :=
  match mget s.jar k with
  | none => s
  | some e =>
    if ¬ s.online then s
    else
      let gen := (mget s.gens k).getD 0 + 1
      let tt := jsOr e.ttl defaultTTL
      let rt : Int := (expiry : Int) - (s.now : Int) - ((tt / 10 : Nat) : Int)
      if rt ≤ 0 then
        { s with gens := mset s.gens k gen,
                 timers := mdel s.timers k,
                 pending := s.pending ++ [(k, some gen)] }
      else
        { s with gens := mset s.gens k gen,
                 timers := mset (mdel s.timers k) k (gen, s.now + rt.toNat) }

/-- remove(key) (the body after the destroyed guard): delete the entry,
its refresher binding and access timestamp, bump the generation so
pending refresh results are ignored, cancel the timer, delete from the
persistent store, broadcast the deletion, notify, and stop the GC timer
when the jar became empty. -/
def removeCore (s : St V) (k : String) : St V :=
  if (mget s.jar k).isSome then
    let s := { s with jar := mdel s.jar k,
                      refreshers := mdel s.refreshers k,
                      access := mdel s.access k }
    let s := { s with gens := mset s.gens k ((mget s.gens k).getD 0 + 1) }
    let s := { s with timers := mdel s.timers k }
    -- await removeFromDB(key): suspension point, then idbDelete
    let s := { s with store := mdel s.store k, storeOps := s.storeOps + 1 }
    let s := { s with sent := s.sent ++ [((some k, none) : Msg V)] }
    let s := { s with notifies := s.notifies + 1 }
    if s.jar.length = 0 then { s with gcTimer := false } else s
  else s

/-- The eviction loop of enforceMaxSizeIfNeeded: while the jar is over
the bound and sorted access items remain, shift the oldest item and
remove that key through the ordinary remove path. -/
def evictLoop (ms : Nat) : St V → List String → St V
  | s, [] => s
  | s, k :: rest =>
    if s.jar.length > ms then evictLoop ms (removeCore s k) rest else s

/-- enforceMaxSizeIfNeeded: no-op without a configured maxSize or when
within bound; otherwise evict oldest-by-last-access entries one at a
time (the source sorts the access index oldest-first; JS sort is
stable, as is mergeSort). -/
def enforceMaxSizeIfNeeded (s : St V) : St V :=
  match s.maxSize with
  | none => s
  | some ms =>
    if s.jar.length ≤ ms then s
    else evictLoop ms s
      ((sortBy (fun a b => a.2 < b.2) s.access).map (fun p => p.1))

/-- The first phase of set(key, value, ttl, fetcher): everything after
the await of dbReady and before the await of persist — compute the
expiry, write the jar entry (set never puts a fetcherId field on the
jar entry), touch the access index, start the GC timer when this is the
first entry, and wire the refresher argument (null deletes the binding;
a bare function binds it; an fn/id object with a truthy id binds it and
registers it, and is the only form whose id is persisted; anything else
is logged as invalid and changes nothing).  Returns the state and the
fetcherId to persist.  The ttl argument is the raw JS value: an
explicit null coerces to 0 in the expiry sum. -/
def setPhase1 (s : St V) (k : String) (v : V) (ttl : Option Nat)
    (fetcher : FetcherArg) : St V × Option String :=
  let expiry := s.now + ttl.getD 0
  let e : Entry V := ⟨v, expiry, ttl, none⟩
  let s := { s with jar := mset s.jar k e }
  let s := touchKey s k
  let s := if s.jar.length = 1 then { s with gcTimer := true } else s
  match fetcher with
  | .noF => ({ s with refreshers := mdel s.refreshers k }, none)
  | .funF t => ({ s with refreshers := mset s.refreshers k t }, none)
  | .objF t id =>
    if idTruthy id then
      ({ s with refreshers := mset s.refreshers k t,
                fetcherRegistry := mset s.fetcherRegistry (id.getD "") t },
        id)
    else (s, none)

/-- The second phase of set: persist the record (suspension point),
broadcast the change, (re)schedule the refresh, enforce the size bound,
and notify (the trailing quota check talks to the external
navigator.storage API and is a no-op here). -/
def setPhase2 (s : St V) (k : String) (v : V) (ttl : Option Nat)
    (fid : Option String) : St V :=
  let expiry := s.now + ttl.getD 0
  let s := { s with store := mset s.store k ⟨v, expiry, ttl, fid⟩,
                    storeOps := s.storeOps + 1 }
  let s := { s with sent := s.sent ++ [((some k, some ⟨v, expiry, ttl, fid⟩) : Msg V)] }
  let s := scheduleRefresh s k expiry
  let s := enforceMaxSizeIfNeeded s
  { s with notifies := s.notifies + 1 }

/-- set(key, value, ttl, fetcher), body after the destroyed/key guards
and the await of dbReady. -/
def setCore (s : St V) (k : String) (v : V) (ttl : Option Nat)
    (fetcher : FetcherArg) : St V :=
  let (s1, fid) := setPhase1 s k v ttl fetcher
  setPhase2 s1 k v ttl fid

/-- get(key, extend, staleWhileRevalidate), body after the guards and
the await of dbReady.  Absent: null.  Expired with
staleWhileRevalidate and a bound refresher: fire refresh(key) without
awaiting (queued with the generation read at call time, the default
argument of refresh) and return the stale value.  Expired otherwise:
remove from jar, index and store, broadcast the deletion, notify,
return null.  Fresh with extend: reset the expiry, re-persist and
reschedule.  Returns the new state and the returned value. -/
def getCore (s : St V) (k : String) (extend swr : Bool) :
    St V × Option V :=
  match mget s.jar k with
  | none => (s, none)
  | some e =>
    let expired := s.now > e.expiry
    let s := touchKey s k
    if expired then
      if swr ∧ (mget s.refreshers k).isSome then
        ({ s with pending := s.pending ++ [(k, mget s.gens k)] }, some e.value)
      else
        let s := { s with jar := mdel s.jar k, access := mdel s.access k }
        let s := { s with store := mdel s.store k, storeOps := s.storeOps + 1 }
        let s := { s with sent := s.sent ++ [((some k, none) : Msg V)],
                          notifies := s.notifies + 1 }
        (s, none)
    else if extend then
      let expiry2 := s.now + jsOr e.ttl defaultTTL
      let s := { s with jar := mset s.jar k { e with expiry := expiry2 } }
      let s := { s with store := mset s.store k ⟨e.value, expiry2, e.ttl, e.fetcherId⟩,
                        storeOps := s.storeOps + 1 }
      let s := scheduleRefresh s k expiry2
      (s, some e.value)
    else (s, some e.value)

/-- clear(), body after the destroyed guard: empty the jar, refresher
bindings and access index, bump the generation of every key present in
the generations map, cancel all timers, clear the store (suspension
point), broadcast (null, null), notify, and stop the GC timer. -/
def clearCore (s : St V) : St V :=
  let s := { s with jar := [], refreshers := [], access := [] }
  let s := { s with gens := s.gens.map (fun (p : String × Nat) => (p.1, p.2 + 1)) }
  let s := { s with timers := [] }
  let s := { s with store := [], storeOps := s.storeOps + 1 }
  let s := { s with sent := s.sent ++ [((none, none) : Msg V)] }
  let s := { s with notifies := s.notifies + 1 }
  { s with gcTimer := false }

/-- mutate(key, mutator), the part that runs before the mutator is
awaited: read the entry (mutate aborts when absent), run
get(key, extend false) and abort when it reports absence, then capture
the pre-mutation generation.  Returns the state together with the
captured entry, generation and current value handed to the mutator
(none when mutate returned early). -/
def mutatePre (s : St V) (k : String) :
    St V × Option (Entry V × Nat × V) :=
  match mget s.jar k with
  | none => (s, none)
  | some e0 =>
    let r := getCore s k false false
    match r.2 with
    | none => (r.1, none)
    | some cur =>
      let eg := (mget r.1.gens k).getD 0
      (r.1, some (e0, eg, cur))

/-- mutate(key, mutator), the part that runs after the mutator
resolves with newValue: re-check the generation (discarding the
mutation when it changed while the mutator was being evaluated), bump
it, and write the new value through the normal set path with the
captured entry's ttl, rebinding the current refresher as an fn/id
object built from the captured entry's fetcherId. -/
def mutatePost (s : St V) (e0 : Entry V) (eg : Nat) (k : String)
    (newValue : V) : St V :=
  if (mget s.gens k).getD 0 ≠ eg then s
  else
    let s := { s with gens := mset s.gens k (eg + 1) }
    let farg := match mget s.refreshers k with
      | some t => FetcherArg.objF t e0.fetcherId
      | none => FetcherArg.noF
    setCore s k newValue e0.ttl farg

/-- The refresher argument refresh() hands back to set() on a
successful fetch: the fn/id object when the captured entry had a
truthy fetcherId, the bare function otherwise. -/
def refreshFarg (fid : Option String) (t : Nat) : FetcherArg :=
  if idTruthy fid then FetcherArg.objF t fid else FetcherArg.funF t

/-- refresh(key, expectedGen), the part before the fetcher is awaited:
return the captured entry and fetcher token when the entry and a bound
fetcher exist, the instance is online, and expectedGen equals the
current generation (else superseded, abort silently).  The state is
not modified. -/
def refreshPre (s : St V) (k : String) (eg : Option Nat) :
    Option (Entry V × Nat) :=
  match mget s.jar k, mget s.refreshers k with
  | some e, some t =>
    if ¬ s.online then none
    else if eg ≠ mget s.gens k then none
    else some (e, t)
  | _, _ => none

/-- refresh, the commit that runs after a successful fetch: re-check
destroyed, online, presence and generation, and only then write the
fresh value through the normal set path with the captured entry's ttl
and refresher. -/
def refreshPostOk (s : St V) (k : String) (e0 : Entry V) (t : Nat)
    (eg : Option Nat) (freshValue : V) : St V :=
  if s.destroyed then s
  else if ¬ s.online then s
  else if (mget s.jar k).isNone then s
  else if eg ≠ mget s.gens k then s
  else setCore s k freshValue e0.ttl (refreshFarg e0.fetcherId t)

/-- One whole refresh attempt run without interference from other
operations (the state seen at every suspension point is the state at
entry).  o1 is the first fetch's outcome (none = threw or rejected),
o2 the immediate retry's outcome.  Both failures are swallowed with a
console warning, so the run is total and never propagates an error;
the second component counts how many times the fetcher was invoked. -/
def refreshRun (s : St V) (k : String) (eg : Option Nat)
    (o1 o2 : Option V) : St V × Nat :=
  match refreshPre s k eg with
  | none => (s, 0)
  | some (e0, t) =>
    match o1 with
    | some v => (refreshPostOk s k e0 t eg v, 1)
    | none =>
      -- catch: warn, then retry once iff the generation is unchanged
      if eg = mget s.gens k then
        match o2 with
        | some v =>
          (if ¬ s.destroyed ∧ s.online ∧ (mget s.jar k).isSome
              ∧ eg = mget s.gens k
            then setCore s k v e0.ttl (refreshFarg e0.fetcherId t)
            else s, 2)
        | none => (s, 2) -- retry failed: warn and abandon the cycle
      else (s, 1)

/-- handleRemoteUpdate(key, entry): inbound reconciliation.  A null
entry deletes the local entry (when present) and notifies; a non-null
entry is compared by serialized value, expiry, ttl and fetcherId
against the local one (the expiry, ttl and fetcherId fields are first
normalized with JS truthiness defaults), and on any difference the
local entry is overwritten, the access index touched, the refresher
re-attached and rescheduled when the fetcherId is bound in the local
registry (deleted otherwise), and subscribers notified.  It never
writes the store and never broadcasts.  A null key only ever arrives
paired with a null entry (the clear() broadcast), where the deletion
branch finds no local entry and does nothing. -/
def handleRemoteUpdate (s : St V) (key : Option String)
    (ent : Option (Entry V)) : St V :=
  match key with
  | none => s
  | some k =>
    let cur := mget s.jar k
    match ent with
    | none =>
      match cur with
      | none => s
      | some _ =>
        { s with jar := mdel s.jar k, access := mdel s.access k,
                 refreshers := mdel s.refreshers k,
                 notifies := s.notifies + 1 }
    | some en =>
      let expiry := jsOrNat en.expiry (s.now + defaultTTL)
      let ttl := jsNullNat en.ttl
      let fid := jsNullStr en.fetcherId
      let differs := match cur with
        | none => true
        | some c =>
          decide (¬ (c.value = en.value ∧ c.expiry = expiry ∧ c.ttl = ttl
            ∧ c.fetcherId = fid))
      if differs then
        let s := { s with jar := mset s.jar k ⟨en.value, expiry, ttl, fid⟩ }
        let s := touchKey s k
        let s := match fid with
          | some id =>
            match mget s.fetcherRegistry id with
            | some t =>
              scheduleRefresh { s with refreshers := mset s.refreshers k t }
                k expiry
            | none => { s with refreshers := mdel s.refreshers k }
          | none => { s with refreshers := mdel s.refreshers k }
        { s with notifies := s.notifies + 1 }
      else s

/-- The BroadcastChannel onmessage handler: the source calls
handleRemoteUpdate(e.data.key, e.data.value), but broadcastChange
posts messages of shape (key, entry) — the value field of the event
data is never set, so the second argument is always undefined
(modelled as none).  The localStorage fallback destructures the same
missing value field. -/
def channelOnMessage (s : St V) (m : Msg V) : St V :=
  handleRemoteUpdate s m.1 none

/-- What a faithfully wired onmessage handler would do with the same
event: hand the message's entry field to handleRemoteUpdate.  Kept for
comparison with channelOnMessage. -/
def channelOnMessageIntended (s : St V) (m : Msg V) : St V :=
  handleRemoteUpdate s m.1 m.2

/-- destroy(): idempotent; stops the GC timer, cancels all refresh
timers, closes the broadcast channel and removes the window listeners
(both external), and marks the instance destroyed.  It does not touch
the jar, the access index, the refresher bindings or the store. -/
def destroyCore (s : St V) : St V :=
  if s.destroyed then s
  else { s with gcTimer := false, timers := [], destroyed := true }

/-- The synchronous failures the public surface can raise. -/
inductive BiscuitErr
  | destroyedInstance
  | invalidArgument
  deriving DecidableEq, Repr

/-- ensureNotDestroyed as a guard combinator for public operations. -/
def guarded (s : St V) {α : Type} (body : Except BiscuitErr α) :
    Except BiscuitErr α :=
  if s.destroyed then .error .destroyedInstance else body

/-- Public set(): destroyed guard, then the non-empty string key
check, then the body. -/
def setOp (s : St V) (k : String) (v : V) (ttl : Option Nat)
    (fetcher : FetcherArg) : Except BiscuitErr (St V) :=
  guarded s <|
    if k = "" then .error .invalidArgument
    else .ok (setCore s k v ttl fetcher)

/-- Public get(). -/
def getOp (s : St V) (k : String) (extend swr : Bool) :
    Except BiscuitErr (St V × Option V) :=
  guarded s <|
    if k = "" then .error .invalidArgument
    else .ok (getCore s k extend swr)

/-- Public mutate() up to its mutator suspension (the mutator-is-a-
function check always passes in the embedding, where the mutator's
resolved output is supplied to mutatePost). -/
def mutateOp (s : St V) (k : String) :
    Except BiscuitErr (St V × Option (Entry V × Nat × V)) :=
  guarded s <|
    if k = "" then .error .invalidArgument
    else .ok (mutatePre s k)

/-- Public remove(). -/
def removeOp (s : St V) (k : String) : Except BiscuitErr (St V) :=
  guarded s <|
    if k = "" then .error .invalidArgument
    else .ok (removeCore s k)

/-- Public clear(). -/
def clearOp (s : St V) : Except BiscuitErr (St V) :=
  guarded s (.ok (clearCore s))

/-- Public has(key): present and not yet expired. -/
def hasOp (s : St V) (k : String) : Except BiscuitErr Bool :=
  guarded s <| .ok (match mget s.jar k with
    | some e => decide (s.now < e.expiry)
    | none => false)

/-- Public keys(). -/
def keysOp (s : St V) : Except BiscuitErr (List String) :=
  guarded s (.ok (s.jar.map (fun p => p.1)))

/-- Public size(includeExpired). -/
def sizeOp (s : St V) (includeExpired : Bool) : Except BiscuitErr Nat :=
  guarded s <| .ok <|
    if includeExpired then s.jar.length
    else (s.jar.filter (fun p => s.now < p.2.expiry)).length

/-- Public subscribe(fn): register the subscriber (and fire it once
immediately with the current snapshot, an effect outside the state). -/
def subscribeOp (s : St V) : Except BiscuitErr (St V) :=
  guarded s (.ok { s with subscribers := s.subscribers + 1 })

/-- Public refresh(key, expectedGen): the destroyed guard, then the
pre-fetch phase. -/
def refreshOp (s : St V) (k : String) (eg : Option Nat) :
    Except BiscuitErr (Option (Entry V × Nat)) :=
  guarded s (.ok (refreshPre s k eg))

/-- Public ready(): awaits dbReady and logs.  The source has no
destroyed check here, so it succeeds even after destroy(). -/
def readyOp (_s : St V) : Except BiscuitErr Unit :=
  .ok ()

/-- A fresh engine state: what createBiscuit closes over right after
construction (with init's store load finished on an empty store), for
a given configured maxSize and clock value. -/
def initialState (V : Type) (maxSize : Option Nat) (now : Nat) : St V :=
  { jar := [], access := [], refreshers := [], fetcherRegistry := [],
    gens := [], timers := [], pending := [], store := [], storeOps := 0,
    sent := [], notifies := 0, subscribers := 0, gcTimer := false,
    destroyed := false, online := true, now := now, maxSize := maxSize }

/-- The kinds of atomic step a public operation's body performs, used
to transcribe the textual order of each operation and reason about
which side effects precede the first asynchronous suspension. -/
inductive OpStep
  | validate
  | awaitSusp
  | jarWrite
  | touch
  | gcToggle
  | bindRefresher
  | genCapture
  | genCheck
  | bumpGen
  | timerCancel
  | timerSet
  | broadcast
  | evict
  | notifyStep
  deriving DecidableEq, Repr

/-- The step order of set(): guards; await dbReady; jar write; touch;
GC start; refresher wiring; await persist; broadcast; then
scheduleRefresh (generation bump, timer cancel, timer set); eviction;
notify. -/
def setSteps : List OpStep :=
  [.validate, .awaitSusp, .jarWrite, .touch, .gcToggle, .bindRefresher,
   .awaitSusp, .broadcast, .bumpGen, .timerCancel, .timerSet, .evict,
   .notifyStep]

/-- The step order of remove(): guards; jar/refresher/access deletes;
generation bump; timer cancel; await removeFromDB; broadcast; notify;
GC stop. -/
def removeSteps : List OpStep :=
  [.validate, .jarWrite, .bumpGen, .timerCancel, .awaitSusp, .broadcast,
   .notifyStep, .gcToggle]

/-- The step order of clear(): guards; clears; generation bumps; timer
cancels; await clearDB; broadcast; notify; GC stop. -/
def clearSteps : List OpStep :=
  [.validate, .jarWrite, .bumpGen, .timerCancel, .awaitSusp, .broadcast,
   .notifyStep, .gcToggle]

/-- The step order of mutate(): guards; the embedded get (await
dbReady, touch); generation capture; await the mutator; generation
re-check; generation bump; then the embedded set. -/
def mutateSteps : List OpStep :=
  [.validate, .awaitSusp, .touch, .genCapture, .awaitSusp, .genCheck,
   .bumpGen] ++ setSteps

/-- Whether a step list performs a generation bump strictly before its
first asynchronous suspension. -/
def bumpsGenBeforeFirstAwait : List OpStep → Bool
  | [] => false
  | .bumpGen :: _ => true
  | .awaitSusp :: _ => false
  | _ :: rest => bumpsGenBeforeFirstAwait rest

/-- The fetcherId a given fetcher argument causes set() to persist. -/
def persistedId (f : FetcherArg) : Option String :=
  match f with
  | .noF => none
  | .funF _ => none
  | .objF _ id => if idTruthy id then id else none

/-- A small concrete state over Nat values for the concrete scenarios:
one fresh entry for key k with a bound refresher (token 1) and a
recorded generation 5, clock at 100, no size bound. -/
def demoState : St Nat :=
  { initialState Nat none 100 with
    jar := [("k", ⟨0, 1000, some 100, none⟩)],
    access := [("k", 50)],
    refreshers := [("k", 1)],
    gens := [("k", 5)] }

/-- The spec's eviction scenario, step 1: maxSize 2, insert a at 100. -/
def c6State1 : St Nat :=
  setCore (initialState Nat (some 2) 100) "a" 1 (some 1000) .noF

/-- Eviction scenario, step 2: insert b at 200. -/
def c6State2 : St Nat :=
  setCore { c6State1 with now := 200 } "b" 2 (some 1000) .noF

/-- Eviction scenario, step 3: insert c at 300, which must evict a. -/
def c6Final : St Nat :=
  setCore { c6State2 with now := 300 } "c" 3 (some 1000) .noF

/-- An over-bound state whose access index covers its jar, for
exercising the eviction bound directly. -/
def c6WitState : St Nat :=
  { initialState Nat (some 2) 100 with
    jar := [("a", ⟨1, 1000, some 100, none⟩),
            ("b", ⟨2, 1000, some 100, none⟩),
            ("c", ⟨3, 1000, some 100, none⟩)],
    access := [("a", 10), ("b", 20), ("c", 30)] }

/-- The broadcast message instance A emits for set("k", 7, ttl 1000)
from a fresh state with clock 100 (expiry 1100, no fetcherId). -/
def c3Msg : Msg Nat := (some "k", some ⟨7, 1100, some 1000, none⟩)

end Engine

section Maps

variable {α : Type}

@[simp] theorem mget_nil (k : String) : mget ([] : List (String × α)) k = none := rfl

theorem find?_map_update (rest : List (String × α)) (k k' : String) (v : α)
    (h : k' ≠ k) :
    List.find? (fun p => p.1 = k')
        (rest.map (fun p => if p.1 = k then (k, v) else p)) =
      (List.find? (fun p => p.1 = k') rest).map
        (fun p => if p.1 = k then (k, v) else p) := by
  induction rest with
  | nil => rfl
  | cons q rest ih =>
    by_cases hq : q.1 = k
    · simp [List.find?_cons, hq, Ne.symm h, ih]
    · by_cases hq' : q.1 = k'
      · simp [List.find?_cons, hq, hq', h]
      · simp [List.find?_cons, hq, hq', ih]

@[simp] theorem mget_mset_self (m : List (String × α)) (k : String) (v : α) :
    mget (mset m k v) k = some v := by
  unfold mget mset
  split
  · rename_i h
    induction m with
    | nil => simp at h
    | cons p rest ih =>
      simp only [List.any_cons, Bool.or_eq_true, decide_eq_true_eq] at h
      by_cases hp : p.1 = k
      · simp [List.find?_cons, hp]
      · rcases h with h | h
        · exact absurd h hp
        · simpa [List.find?_cons, hp] using ih h
  · rename_i h
    have h' : ∀ p ∈ m, ¬ p.1 = k := by
      intro p hp hk
      exact h (List.any_eq_true.mpr ⟨p, hp, by simpa using hk⟩)
    clear h
    induction m with
    | nil => simp
    | cons p rest ih =>
      have h1 : ¬ p.1 = k := h' p (by simp)
      simpa [List.find?_cons, h1] using
        ih (fun q hq => h' q (List.mem_cons_of_mem _ hq))

@[simp] theorem mget_mset_ne (m : List (String × α)) (k k' : String) (v : α)
    (h : k' ≠ k) : mget (mset m k v) k' = mget m k' := by
  unfold mget mset
  split
  · rw [find?_map_update m k k' v h]
    cases hf : List.find? (fun p => p.1 = k') m with
    | none => rfl
    | some q =>
      have hq : q.1 = k' := by
        have := List.find?_some hf
        simpa using this
      have hqk : ¬ q.1 = k := by rw [hq]; exact h
      simp [hqk]
  · rename_i hany
    clear hany
    induction m with
    | nil => simp [List.find?_cons, Ne.symm h]
    | cons p rest ih =>
      by_cases hp' : p.1 = k'
      · simp [List.find?_cons, hp']
      · simpa [List.find?_cons, hp'] using ih

@[simp] theorem mget_mdel_self (m : List (String × α)) (k : String) :
    mget (mdel m k) k = none := by
  unfold mget mdel
  induction m with
  | nil => simp
  | cons p rest ih =>
    by_cases hp : p.1 = k
    · simpa [List.filter_cons, hp] using ih
    · simpa [List.filter_cons, List.find?_cons, hp] using ih

@[simp] theorem mget_mdel_ne (m : List (String × α)) (k k' : String)
    (h : k' ≠ k) : mget (mdel m k) k' = mget m k' := by
  unfold mget mdel
  induction m with
  | nil => simp
  | cons p rest ih =>
    by_cases hp : p.1 = k
    · have hp' : ¬ (p.1 = k') := by rw [hp]; exact Ne.symm h
      simpa [List.filter_cons, List.find?_cons, hp, hp', Ne.symm h] using ih
    · by_cases hp' : p.1 = k'
      · simp [List.filter_cons, List.find?_cons, hp, hp', h]
      · simpa [List.filter_cons, List.find?_cons, hp, hp'] using ih

theorem insertSorted_perm {β : Type} (lt : β → β → Bool) (x : β)
    (l : List β) : (insertSorted lt x l).Perm (x :: l) := by
  induction l with
  | nil => exact List.Perm.refl _
  | cons y ys ih =>
    unfold insertSorted
    by_cases h : lt y x
    · rw [if_pos h]
      exact (ih.cons y).trans (List.Perm.swap x y ys)
    · rw [if_neg h]

theorem sortBy_perm {β : Type} (lt : β → β → Bool) (l : List β) :
    (sortBy lt l).Perm l := by
  induction l with
  | nil => exact List.Perm.refl _
  | cons x xs ih =>
    unfold sortBy
    exact (insertSorted_perm lt x (sortBy lt xs)).trans (ih.cons x)

theorem mem_keys_of_mem_mdel {m : List (String × α)} {k : String}
    {p : String × α} (h : p ∈ mdel m k) : p ∈ m := by
  unfold mdel at h
  exact List.mem_of_mem_filter h

theorem length_mdel_lt {m : List (String × α)} {k : String}
    (h : (mget m k).isSome) : (mdel m k).length < m.length := by
  unfold mget at h
  unfold mdel
  induction m with
  | nil => simp at h
  | cons p rest ih =>
    by_cases hp : p.1 = k
    · have : (List.filter (fun p => !decide (p.1 = k)) rest).length ≤ rest.length :=
        List.length_filter_le _ _
      simpa [List.filter_cons, hp] using Nat.lt_succ_of_le this
    · have h' : (List.find? (fun p => decide (p.1 = k)) rest).isSome := by
        rw [List.find?_cons_of_neg _ (by simpa using hp)] at h
        simpa using h
      have := ih (by simpa using h')
      simpa [List.filter_cons, hp] using Nat.succ_lt_succ this

end Maps

section Lemmas

variable {V : Type} [DecidableEq V]

@[simp] theorem touchKey_jar (s : St V) (k : String) :
    (touchKey s k).jar = s.jar := rfl

@[simp] theorem touchKey_gens (s : St V) (k : String) :
    (touchKey s k).gens = s.gens := rfl

@[simp] theorem touchKey_refreshers (s : St V) (k : String) :
    (touchKey s k).refreshers = s.refreshers := rfl

@[simp] theorem touchKey_fetcherRegistry (s : St V) (k : String) :
    (touchKey s k).fetcherRegistry = s.fetcherRegistry := rfl

@[simp] theorem touchKey_timers (s : St V) (k : String) :
    (touchKey s k).timers = s.timers := rfl

@[simp] theorem touchKey_pending (s : St V) (k : String) :
    (touchKey s k).pending = s.pending := rfl

@[simp] theorem touchKey_store (s : St V) (k : String) :
    (touchKey s k).store = s.store := rfl

@[simp] theorem touchKey_storeOps (s : St V) (k : String) :
    (touchKey s k).storeOps = s.storeOps := rfl

@[simp] theorem touchKey_sent (s : St V) (k : String) :
    (touchKey s k).sent = s.sent := rfl

@[simp] theorem touchKey_notifies (s : St V) (k : String) :
    (touchKey s k).notifies = s.notifies := rfl

@[simp] theorem touchKey_gcTimer (s : St V) (k : String) :
    (touchKey s k).gcTimer = s.gcTimer := rfl

@[simp] theorem touchKey_destroyed (s : St V) (k : String) :
    (touchKey s k).destroyed = s.destroyed := rfl

@[simp] theorem touchKey_online (s : St V) (k : String) :
    (touchKey s k).online = s.online := rfl

@[simp] theorem touchKey_now (s : St V) (k : String) :
    (touchKey s k).now = s.now := rfl

@[simp] theorem touchKey_maxSize (s : St V) (k : String) :
    (touchKey s k).maxSize = s.maxSize := rfl

@[simp] theorem touchKey_subscribers (s : St V) (k : String) :
    (touchKey s k).subscribers = s.subscribers := rfl

theorem scheduleRefresh_of_absent (s : St V) (k : String) (x : Nat)
    (h : mget s.jar k = none) : scheduleRefresh s k x = s := by
  simp [scheduleRefresh, h]

@[simp] theorem scheduleRefresh_jar (s : St V) (k : String) (x : Nat) :
    (scheduleRefresh s k x).jar = s.jar := by
  unfold scheduleRefresh
  split
  · rfl
  · split
    · rfl
    · dsimp only
      split <;> rfl

@[simp] theorem scheduleRefresh_access (s : St V) (k : String) (x : Nat) :
    (scheduleRefresh s k x).access = s.access := by
  unfold scheduleRefresh
  split
  · rfl
  · split
    · rfl
    · dsimp only
      split <;> rfl

@[simp] theorem scheduleRefresh_refreshers (s : St V) (k : String) (x : Nat) :
    (scheduleRefresh s k x).refreshers = s.refreshers := by
  unfold scheduleRefresh
  split
  · rfl
  · split
    · rfl
    · dsimp only
      split <;> rfl

@[simp] theorem scheduleRefresh_fetcherRegistry (s : St V) (k : String)
    (x : Nat) : (scheduleRefresh s k x).fetcherRegistry = s.fetcherRegistry := by
  unfold scheduleRefresh
  split
  · rfl
  · split
    · rfl
    · dsimp only
      split <;> rfl

@[simp] theorem scheduleRefresh_store (s : St V) (k : String) (x : Nat) :
    (scheduleRefresh s k x).store = s.store := by
  unfold scheduleRefresh
  split
  · rfl
  · split
    · rfl
    · dsimp only
      split <;> rfl

@[simp] theorem scheduleRefresh_storeOps (s : St V) (k : String) (x : Nat) :
    (scheduleRefresh s k x).storeOps = s.storeOps := by
  unfold scheduleRefresh
  split
  · rfl
  · split
    · rfl
    · dsimp only
      split <;> rfl

@[simp] theorem scheduleRefresh_sent (s : St V) (k : String) (x : Nat) :
    (scheduleRefresh s k x).sent = s.sent := by
  unfold scheduleRefresh
  split
  · rfl
  · split
    · rfl
    · dsimp only
      split <;> rfl

@[simp] theorem scheduleRefresh_notifies (s : St V) (k : String) (x : Nat) :
    (scheduleRefresh s k x).notifies = s.notifies := by
  unfold scheduleRefresh
  split
  · rfl
  · split
    · rfl
    · dsimp only
      split <;> rfl

@[simp] theorem scheduleRefresh_gcTimer (s : St V) (k : String) (x : Nat) :
    (scheduleRefresh s k x).gcTimer = s.gcTimer := by
  unfold scheduleRefresh
  split
  · rfl
  · split
    · rfl
    · dsimp only
      split <;> rfl

@[simp] theorem scheduleRefresh_destroyed (s : St V) (k : String) (x : Nat) :
    (scheduleRefresh s k x).destroyed = s.destroyed := by
  unfold scheduleRefresh
  split
  · rfl
  · split
    · rfl
    · dsimp only
      split <;> rfl

@[simp] theorem scheduleRefresh_online (s : St V) (k : String) (x : Nat) :
    (scheduleRefresh s k x).online = s.online := by
  unfold scheduleRefresh
  split
  · rfl
  · split
    · rfl
    · dsimp only
      split <;> rfl

@[simp] theorem scheduleRefresh_now (s : St V) (k : String) (x : Nat) :
    (scheduleRefresh s k x).now = s.now := by
  unfold scheduleRefresh
  split
  · rfl
  · split
    · rfl
    · dsimp only
      split <;> rfl

@[simp] theorem scheduleRefresh_maxSize (s : St V) (k : String) (x : Nat) :
    (scheduleRefresh s k x).maxSize = s.maxSize := by
  unfold scheduleRefresh
  split
  · rfl
  · split
    · rfl
    · dsimp only
      split <;> rfl

theorem scheduleRefresh_gens_self (s : St V) (k : String) (x : Nat)
    (e : Entry V) (hj : mget s.jar k = some e) (ho : s.online = true) :
    mget (scheduleRefresh s k x).gens k =
      some ((mget s.gens k).getD 0 + 1) := by
  simp only [scheduleRefresh, hj, ho, not_true_eq_false, Bool.not_eq_true,
    if_false]
  split <;> simp

theorem enforceMaxSizeIfNeeded_none (s : St V) (h : s.maxSize = none) :
    enforceMaxSizeIfNeeded s = s := by
  simp [enforceMaxSizeIfNeeded, h]

theorem setPhase1_snd (s : St V) (k : String) (v : V) (ttl : Option Nat)
    (f : FetcherArg) : (setPhase1 s k v ttl f).2 = persistedId f := by
  unfold setPhase1 persistedId
  cases f <;> dsimp only <;> (try split) <;> (try split) <;> rfl

theorem setPhase1_jar (s : St V) (k : String) (v : V) (ttl : Option Nat)
    (f : FetcherArg) :
    (setPhase1 s k v ttl f).1.jar =
      mset s.jar k ⟨v, s.now + ttl.getD 0, ttl, none⟩ := by
  unfold setPhase1
  cases f <;> dsimp only <;> (try split) <;> (try split) <;> rfl

theorem setPhase1_gens (s : St V) (k : String) (v : V) (ttl : Option Nat)
    (f : FetcherArg) : (setPhase1 s k v ttl f).1.gens = s.gens := by
  unfold setPhase1
  cases f <;> dsimp only <;> (try split) <;> (try split) <;> rfl

theorem setPhase1_timers (s : St V) (k : String) (v : V) (ttl : Option Nat)
    (f : FetcherArg) : (setPhase1 s k v ttl f).1.timers = s.timers := by
  unfold setPhase1
  cases f <;> dsimp only <;> (try split) <;> (try split) <;> rfl

theorem setPhase1_pending (s : St V) (k : String) (v : V) (ttl : Option Nat)
    (f : FetcherArg) : (setPhase1 s k v ttl f).1.pending = s.pending := by
  unfold setPhase1
  cases f <;> dsimp only <;> (try split) <;> (try split) <;> rfl

theorem setPhase1_store (s : St V) (k : String) (v : V) (ttl : Option Nat)
    (f : FetcherArg) : (setPhase1 s k v ttl f).1.store = s.store := by
  unfold setPhase1
  cases f <;> dsimp only <;> (try split) <;> (try split) <;> rfl

theorem setPhase1_storeOps (s : St V) (k : String) (v : V) (ttl : Option Nat)
    (f : FetcherArg) : (setPhase1 s k v ttl f).1.storeOps = s.storeOps := by
  unfold setPhase1
  cases f <;> dsimp only <;> (try split) <;> (try split) <;> rfl

theorem setPhase1_sent (s : St V) (k : String) (v : V) (ttl : Option Nat)
    (f : FetcherArg) : (setPhase1 s k v ttl f).1.sent = s.sent := by
  unfold setPhase1
  cases f <;> dsimp only <;> (try split) <;> (try split) <;> rfl

theorem setPhase1_notifies (s : St V) (k : String) (v : V) (ttl : Option Nat)
    (f : FetcherArg) : (setPhase1 s k v ttl f).1.notifies = s.notifies := by
  unfold setPhase1
  cases f <;> dsimp only <;> (try split) <;> (try split) <;> rfl

theorem setPhase1_destroyed (s : St V) (k : String) (v : V) (ttl : Option Nat)
    (f : FetcherArg) : (setPhase1 s k v ttl f).1.destroyed = s.destroyed := by
  unfold setPhase1
  cases f <;> dsimp only <;> (try split) <;> (try split) <;> rfl

theorem setPhase1_online (s : St V) (k : String) (v : V) (ttl : Option Nat)
    (f : FetcherArg) : (setPhase1 s k v ttl f).1.online = s.online := by
  unfold setPhase1
  cases f <;> dsimp only <;> (try split) <;> (try split) <;> rfl

theorem setPhase1_now (s : St V) (k : String) (v : V) (ttl : Option Nat)
    (f : FetcherArg) : (setPhase1 s k v ttl f).1.now = s.now := by
  unfold setPhase1
  cases f <;> dsimp only <;> (try split) <;> (try split) <;> rfl

theorem setPhase1_maxSize (s : St V) (k : String) (v : V) (ttl : Option Nat)
    (f : FetcherArg) : (setPhase1 s k v ttl f).1.maxSize = s.maxSize := by
  unfold setPhase1
  cases f <;> dsimp only <;> (try split) <;> (try split) <;> rfl

theorem setPhase1_gcTimer (s : St V) (k : String) (v : V) (ttl : Option Nat)
    (f : FetcherArg) :
    (setPhase1 s k v ttl f).1.gcTimer =
      (if (mset s.jar k ⟨v, s.now + ttl.getD 0, ttl, none⟩).length = 1
        then true else s.gcTimer) := by
  unfold setPhase1
  cases f <;> dsimp only [touchKey_jar, touchKey_gcTimer] <;>
    (try split) <;> (try split) <;> simp_all [touchKey]

theorem setPhase1_refreshers_noF (s : St V) (k : String) (v : V)
    (ttl : Option Nat) :
    (setPhase1 s k v ttl .noF).1.refreshers = mdel s.refreshers k := by
  unfold setPhase1
  dsimp only
  split <;> rfl

theorem setPhase1_refreshers_funF (s : St V) (k : String) (v : V)
    (ttl : Option Nat) (t : Nat) :
    (setPhase1 s k v ttl (.funF t)).1.refreshers = mset s.refreshers k t := by
  unfold setPhase1
  dsimp only
  split <;> rfl

theorem setPhase1_refreshers_objF (s : St V) (k : String) (v : V)
    (ttl : Option Nat) (t : Nat) (id : Option String) :
    (setPhase1 s k v ttl (.objF t id)).1.refreshers =
      (if idTruthy id then mset s.refreshers k t else s.refreshers) := by
  unfold setPhase1
  dsimp only
  split <;> split <;> simp_all

theorem setPhase2_jar (s : St V) (k : String) (v : V) (ttl : Option Nat)
    (fid : Option String) (hms : s.maxSize = none) :
    (setPhase2 s k v ttl fid).jar = s.jar := by
  unfold setPhase2
  dsimp only
  rw [enforceMaxSizeIfNeeded_none _ (by simp [hms])]
  simp

theorem setPhase2_gens_self (s : St V) (k : String) (v : V)
    (ttl : Option Nat) (fid : Option String) (e : Entry V)
    (hms : s.maxSize = none) (hj : mget s.jar k = some e)
    (ho : s.online = true) :
    mget (setPhase2 s k v ttl fid).gens k =
      some ((mget s.gens k).getD 0 + 1) := by
  unfold setPhase2
  dsimp only
  rw [enforceMaxSizeIfNeeded_none _ (by simp [hms])]
  exact scheduleRefresh_gens_self _ _ _ e (by simpa using hj) (by simpa using ho)

theorem setPhase2_refreshers (s : St V) (k : String) (v : V)
    (ttl : Option Nat) (fid : Option String) (hms : s.maxSize = none) :
    (setPhase2 s k v ttl fid).refreshers = s.refreshers := by
  unfold setPhase2
  dsimp only
  rw [enforceMaxSizeIfNeeded_none _ (by simp [hms])]
  simp

theorem setPhase2_store_self (s : St V) (k : String) (v : V)
    (ttl : Option Nat) (fid : Option String) (hms : s.maxSize = none) :
    mget (setPhase2 s k v ttl fid).store k =
      some ⟨v, s.now + ttl.getD 0, ttl, fid⟩ := by
  unfold setPhase2
  dsimp only
  rw [enforceMaxSizeIfNeeded_none _ (by simp [hms])]
  simp

theorem setPhase2_storeOps (s : St V) (k : String) (v : V)
    (ttl : Option Nat) (fid : Option String) (hms : s.maxSize = none) :
    (setPhase2 s k v ttl fid).storeOps = s.storeOps + 1 := by
  unfold setPhase2
  dsimp only
  rw [enforceMaxSizeIfNeeded_none _ (by simp [hms])]
  simp

theorem setPhase2_sent (s : St V) (k : String) (v : V)
    (ttl : Option Nat) (fid : Option String) (hms : s.maxSize = none) :
    (setPhase2 s k v ttl fid).sent =
      s.sent ++ [((some k, some ⟨v, s.now + ttl.getD 0, ttl, fid⟩) : Msg V)] := by
  unfold setPhase2
  dsimp only
  rw [enforceMaxSizeIfNeeded_none _ (by simp [hms])]
  simp

theorem setPhase2_gcTimer (s : St V) (k : String) (v : V)
    (ttl : Option Nat) (fid : Option String) (hms : s.maxSize = none) :
    (setPhase2 s k v ttl fid).gcTimer = s.gcTimer := by
  unfold setPhase2
  dsimp only
  rw [enforceMaxSizeIfNeeded_none _ (by simp [hms])]
  simp

theorem setPhase2_destroyed (s : St V) (k : String) (v : V)
    (ttl : Option Nat) (fid : Option String) (hms : s.maxSize = none) :
    (setPhase2 s k v ttl fid).destroyed = s.destroyed := by
  unfold setPhase2
  dsimp only
  rw [enforceMaxSizeIfNeeded_none _ (by simp [hms])]
  simp

theorem setPhase2_online (s : St V) (k : String) (v : V)
    (ttl : Option Nat) (fid : Option String) (hms : s.maxSize = none) :
    (setPhase2 s k v ttl fid).online = s.online := by
  unfold setPhase2
  dsimp only
  rw [enforceMaxSizeIfNeeded_none _ (by simp [hms])]
  simp

theorem setPhase2_now (s : St V) (k : String) (v : V)
    (ttl : Option Nat) (fid : Option String) (hms : s.maxSize = none) :
    (setPhase2 s k v ttl fid).now = s.now := by
  unfold setPhase2
  dsimp only
  rw [enforceMaxSizeIfNeeded_none _ (by simp [hms])]
  simp

theorem setPhase2_maxSize (s : St V) (k : String) (v : V)
    (ttl : Option Nat) (fid : Option String) (hms : s.maxSize = none) :
    (setPhase2 s k v ttl fid).maxSize = s.maxSize := by
  unfold setPhase2
  dsimp only
  rw [enforceMaxSizeIfNeeded_none _ (by simp [hms])]
  simp

theorem setCore_maxSize_of_phase1 (s : St V) (k : String) (v : V)
    (ttl : Option Nat) (f : FetcherArg) (hms : s.maxSize = none) :
    (setPhase1 s k v ttl f).1.maxSize = none := by
  rw [setPhase1_maxSize]; exact hms

theorem setCore_jarGet_self (s : St V) (k : String) (v : V)
    (ttl : Option Nat) (f : FetcherArg) (hms : s.maxSize = none) :
    mget (setCore s k v ttl f).jar k =
      some ⟨v, s.now + ttl.getD 0, ttl, none⟩ := by
  unfold setCore
  dsimp only
  rw [setPhase2_jar _ _ _ _ _ (setCore_maxSize_of_phase1 s k v ttl f hms)]
  rw [setPhase1_jar]
  simp

theorem setCore_gens_self (s : St V) (k : String) (v : V)
    (ttl : Option Nat) (f : FetcherArg) (hms : s.maxSize = none)
    (ho : s.online = true) :
    mget (setCore s k v ttl f).gens k =
      some ((mget s.gens k).getD 0 + 1) := by
  unfold setCore
  dsimp only
  rw [setPhase2_gens_self _ _ _ _ _ ⟨v, s.now + ttl.getD 0, ttl, none⟩
    (setCore_maxSize_of_phase1 s k v ttl f hms)
    (by rw [setPhase1_jar]; simp)
    (by rw [setPhase1_online]; exact ho)]
  rw [setPhase1_gens]

theorem setCore_refreshersGet_noF (s : St V) (k : String) (v : V)
    (ttl : Option Nat) (hms : s.maxSize = none) :
    mget (setCore s k v ttl .noF).refreshers k = none := by
  unfold setCore
  dsimp only
  rw [setPhase2_refreshers _ _ _ _ _ (setCore_maxSize_of_phase1 s k v ttl _ hms)]
  rw [setPhase1_refreshers_noF]
  simp

theorem setCore_refreshersGet_funF (s : St V) (k : String) (v : V)
    (ttl : Option Nat) (t : Nat) (hms : s.maxSize = none) :
    mget (setCore s k v ttl (.funF t)).refreshers k = some t := by
  unfold setCore
  dsimp only
  rw [setPhase2_refreshers _ _ _ _ _ (setCore_maxSize_of_phase1 s k v ttl _ hms)]
  rw [setPhase1_refreshers_funF]
  simp

theorem setCore_refreshersGet_objF (s : St V) (k : String) (v : V)
    (ttl : Option Nat) (t : Nat) (id : Option String) (hms : s.maxSize = none) :
    mget (setCore s k v ttl (.objF t id)).refreshers k =
      (if idTruthy id then some t else mget s.refreshers k) := by
  unfold setCore
  dsimp only
  rw [setPhase2_refreshers _ _ _ _ _ (setCore_maxSize_of_phase1 s k v ttl _ hms)]
  rw [setPhase1_refreshers_objF]
  split <;> simp

theorem setCore_storeGet_self (s : St V) (k : String) (v : V)
    (ttl : Option Nat) (f : FetcherArg) (hms : s.maxSize = none) :
    mget (setCore s k v ttl f).store k =
      some ⟨v, s.now + ttl.getD 0, ttl, persistedId f⟩ := by
  unfold setCore
  dsimp only
  rw [setPhase1_snd]
  have h := setPhase2_store_self (setPhase1 s k v ttl f).1 k v ttl
    (persistedId f) (setCore_maxSize_of_phase1 s k v ttl f hms)
  rw [setPhase1_now] at h
  exact h

theorem setCore_storeOps (s : St V) (k : String) (v : V)
    (ttl : Option Nat) (f : FetcherArg) (hms : s.maxSize = none) :
    (setCore s k v ttl f).storeOps = s.storeOps + 1 := by
  unfold setCore
  dsimp only
  rw [setPhase2_storeOps _ _ _ _ _ (setCore_maxSize_of_phase1 s k v ttl f hms)]
  rw [setPhase1_storeOps]

theorem setCore_sent (s : St V) (k : String) (v : V)
    (ttl : Option Nat) (f : FetcherArg) (hms : s.maxSize = none) :
    (setCore s k v ttl f).sent =
      s.sent ++
        [((some k, some ⟨v, s.now + ttl.getD 0, ttl, persistedId f⟩) : Msg V)] := by
  unfold setCore
  dsimp only
  rw [setPhase1_snd]
  have h := setPhase2_sent (setPhase1 s k v ttl f).1 k v ttl
    (persistedId f) (setCore_maxSize_of_phase1 s k v ttl f hms)
  rw [setPhase1_now, setPhase1_sent] at h
  exact h

theorem setCore_gcTimer (s : St V) (k : String) (v : V)
    (ttl : Option Nat) (f : FetcherArg) (hms : s.maxSize = none) :
    (setCore s k v ttl f).gcTimer =
      (if (mset s.jar k ⟨v, s.now + ttl.getD 0, ttl, none⟩).length = 1
        then true else s.gcTimer) := by
  unfold setCore
  dsimp only
  rw [setPhase2_gcTimer _ _ _ _ _ (setCore_maxSize_of_phase1 s k v ttl f hms)]
  exact setPhase1_gcTimer s k v ttl f

theorem setCore_destroyed (s : St V) (k : String) (v : V)
    (ttl : Option Nat) (f : FetcherArg) (hms : s.maxSize = none) :
    (setCore s k v ttl f).destroyed = s.destroyed := by
  unfold setCore
  dsimp only
  rw [setPhase2_destroyed _ _ _ _ _ (setCore_maxSize_of_phase1 s k v ttl f hms)]
  rw [setPhase1_destroyed]

theorem setCore_online (s : St V) (k : String) (v : V)
    (ttl : Option Nat) (f : FetcherArg) (hms : s.maxSize = none) :
    (setCore s k v ttl f).online = s.online := by
  unfold setCore
  dsimp only
  rw [setPhase2_online _ _ _ _ _ (setCore_maxSize_of_phase1 s k v ttl f hms)]
  rw [setPhase1_online]

theorem setCore_now (s : St V) (k : String) (v : V)
    (ttl : Option Nat) (f : FetcherArg) (hms : s.maxSize = none) :
    (setCore s k v ttl f).now = s.now := by
  unfold setCore
  dsimp only
  rw [setPhase2_now _ _ _ _ _ (setCore_maxSize_of_phase1 s k v ttl f hms)]
  rw [setPhase1_now]

theorem jsOr_pos (x : Option Nat) (d : Nat) (hd : 0 < d) :
    0 < jsOr x d := by
  unfold jsOr
  cases x with
  | none => exact hd
  | some n =>
    by_cases h : n = 0
    · simp [h, hd]
    · simp [h]; omega

theorem scheduleRefresh_timersGet_self (s : St V) (k : String) (x : Nat)
    (e : Entry V) (hj : mget s.jar k = some e) (ho : s.online = true)
    (hrt : (0 : Int) <
      (x : Int) - (s.now : Int) - ((jsOr e.ttl defaultTTL / 10 : Nat) : Int)) :
    mget (scheduleRefresh s k x).timers k =
      some ((mget s.gens k).getD 0 + 1,
        s.now + ((x : Int) - (s.now : Int)
          - ((jsOr e.ttl defaultTTL / 10 : Nat) : Int)).toNat) := by
  simp only [scheduleRefresh, hj, ho, not_true_eq_false, Bool.not_eq_true,
    if_false]
  rw [if_neg (by omega)]
  simp

theorem getCore_fresh_noextend (s : St V) (k : String) (e : Entry V)
    (hj : mget s.jar k = some e) (hfresh : ¬ s.now > e.expiry) :
    getCore s k false false = (touchKey s k, some e.value) := by
  simp [getCore, hj, hfresh]

theorem mdel_of_absent {α : Type} (m : List (String × α)) (k : String)
    (h : mget m k = none) : mdel m k = m := by
  unfold mget at h
  rw [Option.map_eq_none'] at h
  have h' := List.find?_eq_none.mp h
  unfold mdel
  rw [List.filter_eq_self.mpr]
  intro a ha
  simpa using h' a ha

theorem removeCore_jar (s : St V) (k : String) :
    (removeCore s k).jar = mdel s.jar k := by
  unfold removeCore
  split
  · dsimp only
    split <;> rfl
  · rename_i h
    rw [mdel_of_absent s.jar k (by simpa using h)]

theorem removeCore_timersGet (s : St V) (k : String)
    (h : (mget s.jar k).isSome) : mget (removeCore s k).timers k = none := by
  unfold removeCore
  rw [if_pos h]
  dsimp only
  split <;> simp

theorem removeCore_gensGet (s : St V) (k : String)
    (h : (mget s.jar k).isSome) :
    mget (removeCore s k).gens k = some ((mget s.gens k).getD 0 + 1) := by
  unfold removeCore
  rw [if_pos h]
  dsimp only
  split <;> simp

theorem getCore_gcTimer (s : St V) (k : String) (extend swr : Bool) :
    (getCore s k extend swr).1.gcTimer = s.gcTimer := by
  unfold getCore
  split
  · rfl
  · dsimp only
    split
    · split <;> rfl
    · split
      · simp
      · rfl

theorem handleRemoteUpdate_gcTimer (s : St V) (key : Option String)
    (ent : Option (Entry V)) :
    (handleRemoteUpdate s key ent).gcTimer = s.gcTimer := by
  unfold handleRemoteUpdate
  cases key with
  | none => rfl
  | some k =>
    cases ent with
    | none =>
      dsimp only
      split <;> rfl
    | some en =>
      dsimp only
      split
      · split
        · split <;> simp
        · rfl
      · rfl

theorem evictLoop_le (ms : Nat) (items : List String) :
    ∀ s : St V, (∀ p ∈ s.jar, p.1 ∈ items) →
      (evictLoop ms s items).jar.length ≤ ms := by
  induction items with
  | nil =>
    intro s h
    unfold evictLoop
    cases hj : s.jar with
    | nil => simp [hj]
    | cons p rest => exact absurd (h p (by simp [hj])) (List.not_mem_nil _)
  | cons k items ih =>
    intro s h
    unfold evictLoop
    by_cases hlen : s.jar.length > ms
    · rw [if_pos hlen]
      apply ih
      intro p hp
      rw [removeCore_jar] at hp
      have hmem : p ∈ s.jar := mem_keys_of_mem_mdel hp
      have hne : ¬ p.1 = k := by
        have h2 : p ∈ s.jar ∧ ¬ p.1 = k := by simpa [mdel] using hp
        exact h2.2
      have hk := h p hmem
      rcases List.mem_cons.mp hk with h1 | h1
      · exact absurd h1 hne
      · exact h1
    · rw [if_neg hlen]
      omega

theorem enforceMaxSizeIfNeeded_le (s : St V) (ms : Nat)
    (hms : s.maxSize = some ms)
    (hcov : ∀ p ∈ s.jar, p.1 ∈ s.access.map (fun q => q.1)) :
    (enforceMaxSizeIfNeeded s).jar.length ≤ ms := by
  unfold enforceMaxSizeIfNeeded
  rw [hms]
  dsimp only
  by_cases hle : s.jar.length ≤ ms
  · rw [if_pos hle]
    exact hle
  · rw [if_neg hle]
    apply evictLoop_le
    intro p hp
    have h1 := hcov p hp
    have hperm :
        ((sortBy (fun a b => a.2 < b.2) s.access).map
          (fun q => q.1)).Perm (s.access.map (fun q => q.1)) :=
      (sortBy_perm _ s.access).map _
    exact hperm.mem_iff.mpr h1

end Lemmas

section Claims

/-- C4 (counterexample): the claim that every mutating operation (set,
mutate, remove, clear) bumps the affected key's generation as its first
step, before any asynchronous work, is false on the code: set awaits
dbReady and persist, and mutate awaits its mutator, before any
generation bump happens (the bump lives inside scheduleRefresh, after
persist and broadcast). -/
theorem claimC4_counterexample :
    ¬ (∀ l ∈ [setSteps, mutateSteps, removeSteps, clearSteps],
        bumpsGenBeforeFirstAwait l = true) := by
  decide

/-- C4 (amended): remove and clear bump the affected key's generation
before their first asynchronous suspension, but set and mutate do not —
set bumps it only inside scheduleRefresh, after the persist suspension
and the broadcast, and mutate only after its mutator resolves.
Consequently a refresh fetch already in flight when set begins still
passes the generation check after set's pre-suspension prefix has
written the new value, and the stale fetched value overwrites it: in
the concrete trace below, set writes 42 and suspends, then the
in-flight refresh against the old generation commits 7 over it. -/
theorem claimC4_amended :
    bumpsGenBeforeFirstAwait removeSteps = true ∧
    bumpsGenBeforeFirstAwait clearSteps = true ∧
    bumpsGenBeforeFirstAwait setSteps = false ∧
    bumpsGenBeforeFirstAwait mutateSteps = false ∧
    refreshPre demoState "k" (some 5) = some (⟨0, 1000, some 100, none⟩, 1) ∧
    mget (setPhase1 demoState "k" 42 (some 100) FetcherArg.noF).1.jar "k" =
      some ⟨42, 200, some 100, none⟩ ∧
    mget (setPhase1 demoState "k" 42 (some 100) FetcherArg.noF).1.gens "k" =
      some 5 ∧
    (mget (refreshPostOk (setPhase1 demoState "k" 42 (some 100)
          FetcherArg.noF).1 "k" ⟨0, 1000, some 100, none⟩ 1 (some 5) 7).jar
        "k").map (fun e => e.value) = some 7 := by
  decide

/-- C5 (counterexample): destroy() does not clear the entry table — the
jar still holds its entries afterwards — and ready() carries no
destroyed guard, so it succeeds after destroy() instead of raising
DestroyedInstance. -/
theorem claimC5_counterexample :
    (destroyCore demoState).jar ≠ [] ∧
    readyOp (destroyCore demoState) = Except.ok () :=
  ⟨by decide, rfl⟩

/-- C5 (amended): destroy() cancels all refresh timers and the GC
timer and marks the instance destroyed; the entry table is left in
place (entries are not cleared), and every public operation except
ready() subsequently fails with DestroyedInstance; ready() never
checks the destroyed flag and still succeeds. -/
theorem claimC5_amended {V : Type} [DecidableEq V] (s : St V)
    (h : s.destroyed = false) :
    (destroyCore s).destroyed = true ∧
    (destroyCore s).timers = [] ∧
    (destroyCore s).gcTimer = false ∧
    (destroyCore s).jar = s.jar ∧
    (∀ k v ttl f, setOp (destroyCore s) k v ttl f =
      Except.error BiscuitErr.destroyedInstance) ∧
    (∀ k extend swr, getOp (destroyCore s) k extend swr =
      Except.error BiscuitErr.destroyedInstance) ∧
    (∀ k, mutateOp (destroyCore s) k =
      Except.error BiscuitErr.destroyedInstance) ∧
    (∀ k, removeOp (destroyCore s) k =
      Except.error BiscuitErr.destroyedInstance) ∧
    clearOp (destroyCore s) = Except.error BiscuitErr.destroyedInstance ∧
    (∀ k, hasOp (destroyCore s) k =
      Except.error BiscuitErr.destroyedInstance) ∧
    keysOp (destroyCore s) = Except.error BiscuitErr.destroyedInstance ∧
    (∀ b, sizeOp (destroyCore s) b =
      Except.error BiscuitErr.destroyedInstance) ∧
    subscribeOp (destroyCore s) = Except.error BiscuitErr.destroyedInstance ∧
    (∀ k eg, refreshOp (destroyCore s) k eg =
      Except.error BiscuitErr.destroyedInstance) ∧
    readyOp (destroyCore s) = Except.ok () := by
  have hd : destroyCore s =
      { s with gcTimer := false, timers := [], destroyed := true } := by
    unfold destroyCore
    rw [if_neg (by simp [h])]
  rw [hd]
  refine ⟨rfl, rfl, rfl, rfl, ?_, ?_, ?_, ?_, ?_, ?_, ?_, ?_, ?_, ?_, rfl⟩ <;>
    intros <;> simp [setOp, getOp, mutateOp, removeOp, clearOp, hasOp,
      keysOp, sizeOp, subscribeOp, refreshOp, guarded]

/-- C5 (witness): the amended destroy behaviour at the concrete demo
state. -/
theorem claimC5_amended_witness :
    (destroyCore demoState).jar = demoState.jar ∧
    readyOp (destroyCore demoState) = Except.ok () :=
  ⟨(claimC5_amended demoState rfl).2.2.2.1,
    (claimC5_amended demoState rfl).2.2.2.2.2.2.2.2.2.2.2.2.2.2⟩

/-- C9 (counterexample): the claim that the GC sweep timer runs iff the
entry table is non-empty after every operation — including insertions
by inbound remote updates — is false: an inbound remote update into an
empty table inserts an entry and leaves the GC timer stopped. -/
theorem claimC9_counterexample :
    (handleRemoteUpdate (initialState Nat none 100) (some "a")
        (some ⟨1, 500, some 100, none⟩)).jar ≠ [] ∧
    (handleRemoteUpdate (initialState Nat none 100) (some "a")
        (some ⟨1, 500, some 100, none⟩)).gcTimer = false := by
  decide

/-- C9 (amended): the GC timer bookkeeping is done only by set, remove
and clear: set starts the timer exactly when the jar's size after the
insert is one, remove stops it when the deletion empties the jar, and
clear always stops it; inbound remote updates (insertions or
deletions) and get (including its expiry-driven removal) never change
the GC timer flag. -/
theorem claimC9_amended {V : Type} [DecidableEq V] (s : St V) :
    (∀ (k : String) (v : V) ttl f, s.maxSize = none → s.jar = [] →
      (setCore s k v ttl f).gcTimer = true) ∧
    (∀ k, (mget s.jar k).isSome → (mdel s.jar k).length = 0 →
      (removeCore s k).gcTimer = false) ∧
    (clearCore s).gcTimer = false ∧
    (∀ key ent, (handleRemoteUpdate s key ent).gcTimer = s.gcTimer) ∧
    (∀ k extend swr, (getCore s k extend swr).1.gcTimer = s.gcTimer) := by
  refine ⟨?_, ?_, rfl, handleRemoteUpdate_gcTimer s, getCore_gcTimer s⟩
  · intro k v ttl f hms hj
    rw [setCore_gcTimer s k v ttl f hms, hj]
    simp [mset]
  · intro k h h0
    unfold removeCore
    rw [if_pos h]
    dsimp only
    rw [if_pos (by simpa using h0)]

/-- C9 (witness): the amended GC timer behaviour at concrete inputs. -/
theorem claimC9_amended_witness :
    (setCore (initialState Nat none 100) "a" 1 (some 10)
      FetcherArg.noF).gcTimer = true :=
  (claimC9_amended (initialState Nat none 100)).1 "a" 1 (some 10)
    FetcherArg.noF rfl rfl

/-- C3 (divergence witness): instance A's set("k", 7) broadcasts the
message (key, entry), but the onmessage wiring hands e.data.value —
a field the message does not carry, hence undefined — to
handleRemoteUpdate, which therefore takes the deletion branch: a
receiving instance B is left unchanged and get("k") stays null instead
of 7.  Handing the message's entry field over instead (the
reconciliation the spec describes and handleRemoteUpdate implements)
would expose the value with no store write and no re-broadcast. -/
theorem claimC3_bug :
    (setCore (initialState Nat none 100) "k" 7 (some 1000)
        FetcherArg.noF).sent = [c3Msg] ∧
    channelOnMessage (initialState Nat none 50) c3Msg =
      initialState Nat none 50 ∧
    (getCore (channelOnMessage (initialState Nat none 50) c3Msg)
      "k" true false).2 = none ∧
    (getCore (channelOnMessageIntended (initialState Nat none 50) c3Msg)
      "k" false false).2 = some 7 ∧
    (channelOnMessageIntended (initialState Nat none 50) c3Msg).storeOps
      = 0 ∧
    (channelOnMessageIntended (initialState Nat none 50) c3Msg).sent
      = [] := by
  decide

/-- C6: count-bound LRU eviction.  Generally, whenever a maxSize is
configured and every jar key has an access timestamp, eviction brings
the table size within the bound; and in the spec's concrete scenario
(maxSize 2, keys a, b, c inserted in order, each touched only at
insertion) key a — the oldest by last access — is evicted through the
ordinary remove path: the final table is exactly keys b and c, a is
gone from the persistent store while b and c are stored, and a's
deletion broadcast was sent. -/
theorem claimC6 :
    (∀ (s : St Nat) (ms : Nat), s.maxSize = some ms →
      (∀ p ∈ s.jar, p.1 ∈ s.access.map (fun q => q.1)) →
      (enforceMaxSizeIfNeeded s).jar.length ≤ ms) ∧
    c6Final.jar.map (fun p => p.1) = ["b", "c"] ∧
    mget c6Final.store "a" = none ∧
    ((some "a", (none : Option (Entry Nat))) ∈ c6Final.sent) ∧
    (mget c6Final.store "b").isSome ∧
    (mget c6Final.store "c").isSome := by
  refine ⟨fun s ms hms hcov => enforceMaxSizeIfNeeded_le s ms hms hcov,
    ?_, ?_, ?_, ?_, ?_⟩ <;> decide

/-- C6 (witness): the eviction bound applied to a concrete over-bound
state. -/
theorem claimC6_witness :
    (enforceMaxSizeIfNeeded c6WitState).jar.length ≤ 2 :=
  claimC6.1 c6WitState 2 rfl (by decide)

/-- C2: a superseded refresh never applies.  remove(k) deletes the
entry, cancels the pending timer and bumps the generation; and once k
is absent, the commit phase of any in-flight refresh (whatever entry,
fetcher and generation token it captured, and whatever its fetch
resolves with) changes nothing, so k stays absent. -/
theorem claimC2 {V : Type} [DecidableEq V] (s : St V) (k : String)
    (hj : (mget s.jar k).isSome) :
    mget (removeCore s k).jar k = none ∧
    mget (removeCore s k).timers k = none ∧
    mget (removeCore s k).gens k = some ((mget s.gens k).getD 0 + 1) ∧
    (∀ e t eg v, refreshPostOk (removeCore s k) k e t eg v =
      removeCore s k) := by
  have hjar : mget (removeCore s k).jar k = none := by
    rw [removeCore_jar]
    exact mget_mdel_self _ _
  refine ⟨hjar, removeCore_timersGet s k hj, removeCore_gensGet s k hj, ?_⟩
  intro e t eg v
  simp [refreshPostOk, hjar]

/-- C2 (witness): removing the demo entry leaves the key absent and a
pending refresh commit inert. -/
theorem claimC2_witness :
    mget (removeCore demoState "k").jar "k" = none :=
  (claimC2 demoState "k" (by decide)).1

/-- C8: refresher failure handling.  In an uninterfered refresh attempt
whose entry, fetcher and generation checks pass, when the fetch throws
the fetcher is retried exactly once immediately (the run makes exactly
two fetcher invocations), and when the retry also throws the run
returns the state exactly unchanged; both failures are swallowed (the
run is total), never thrown to the caller. -/
theorem claimC8 {V : Type} [DecidableEq V] (s : St V) (k : String)
    (e : Entry V) (t : Nat) (eg : Option Nat)
    (hj : mget s.jar k = some e) (hr : mget s.refreshers k = some t)
    (ho : s.online = true) (heg : eg = mget s.gens k) :
    refreshRun s k eg none none = (s, 2) := by
  unfold refreshRun refreshPre
  rw [hj, hr]
  simp [ho, heg]

/-- C8 (witness): the double-failure refresh attempt on the demo state
leaves it exactly unchanged after two fetcher invocations. -/
theorem claimC8_witness :
    refreshRun demoState "k" (some 5) none none = (demoState, 2) :=
  claimC8 demoState "k" ⟨0, 1000, some 100, none⟩ 1 (some 5) (by decide)
    (by decide) (by decide) (by decide)

/-- C1: generation fencing on mutate.  With a fresh entry e for k,
mutate's pre-phase hands the mutator e's value and captures the current
generation; if a concurrent set(k, v2) commits in full while the
mutator is pending, the post-phase finds the generation changed and
discards the mutation — the state is exactly the one the concurrent
set left, whose value for k is v2; if instead nothing interleaves, the
post-phase writes the mutator's output through the normal set path
with the original ttl, and the refresher binding for k is preserved
(rebound through set's fn/id argument when the entry carries a truthy
fetcherId, left bound through set's invalid-fetcher branch
otherwise). -/
theorem claimC1 {V : Type} [DecidableEq V] (s : St V) (k : String)
    (e : Entry V) (hms : s.maxSize = none) (ho : s.online = true)
    (hj : mget s.jar k = some e) (hfresh : ¬ s.now > e.expiry) :
    (mutatePre s k).2 = some (e, (mget s.gens k).getD 0, e.value) ∧
    (∀ (v2 : V) (ttl2 : Option Nat) (f2 : FetcherArg) (m : V),
      mutatePost (setCore (mutatePre s k).1 k v2 ttl2 f2) e
          ((mget s.gens k).getD 0) k m =
        setCore (mutatePre s k).1 k v2 ttl2 f2 ∧
      (mget (setCore (mutatePre s k).1 k v2 ttl2 f2).jar k).map
          (fun en => en.value) = some v2) ∧
    (∀ m : V,
      mget (mutatePost (mutatePre s k).1 e ((mget s.gens k).getD 0) k
          m).jar k = some ⟨m, s.now + e.ttl.getD 0, e.ttl, none⟩ ∧
      mget (mutatePost (mutatePre s k).1 e ((mget s.gens k).getD 0) k
          m).refreshers k = mget s.refreshers k) := by
  have hpre : mutatePre s k =
      (touchKey s k, some (e, (mget s.gens k).getD 0, e.value)) := by
    unfold mutatePre
    rw [hj]
    dsimp only
    rw [getCore_fresh_noextend s k e hj hfresh]
    simp
  rw [hpre]
  refine ⟨rfl, ?_, ?_⟩
  · intro v2 ttl2 f2 m
    have hms1 : (touchKey s k).maxSize = none := by
      rw [touchKey_maxSize]; exact hms
    have ho1 : (touchKey s k).online = true := by
      rw [touchKey_online]; exact ho
    have hgens2 : mget (setCore (touchKey s k) k v2 ttl2 f2).gens k =
        some ((mget s.gens k).getD 0 + 1) := by
      rw [setCore_gens_self _ _ _ _ _ hms1 ho1, touchKey_gens]
    constructor
    · unfold mutatePost
      rw [if_pos]
      rw [hgens2]
      simp
    · rw [setCore_jarGet_self _ _ _ _ _ hms1]
      simp
  · intro m
    have g : Nat := (mget s.gens k).getD 0
    have hcheck : ¬ ((mget (touchKey s k).gens k).getD 0 ≠
        (mget s.gens k).getD 0) := by
      rw [touchKey_gens]
      simp
    unfold mutatePost
    rw [if_neg hcheck]
    dsimp only
    set s1 := { touchKey s k with
      gens := mset (touchKey s k).gens k ((mget s.gens k).getD 0 + 1) }
      with hs1
    have hms1 : s1.maxSize = none := by rw [hs1]; exact hms
    have hrf1 : (touchKey s k).refreshers = s.refreshers := rfl
    have hnow1 : s1.now = s.now := rfl
    cases hrf : mget s.refreshers k with
    | none =>
      rw [hrf1, hrf]
      constructor
      · rw [setCore_jarGet_self _ _ _ _ _ hms1, hnow1]
      · rw [setCore_refreshersGet_noF _ _ _ _ hms1]
    | some t =>
      rw [hrf1, hrf]
      constructor
      · rw [setCore_jarGet_self _ _ _ _ _ hms1, hnow1]
      · rw [setCore_refreshersGet_objF _ _ _ _ _ _ hms1]
        have hs1r : mget s1.refreshers k = some t := hrf
        rw [hs1r]
        split <;> rfl

/-- C1 (witness): the mutate phases on the demo state: the pre-phase
captures entry, generation and value; with no interference the
post-phase writes the mutated value with the original ttl. -/
theorem claimC1_witness :
    (mutatePre demoState "k").2 = some (⟨0, 1000, some 100, none⟩, 5, 0) ∧
    mget (mutatePost (mutatePre demoState "k").1 ⟨0, 1000, some 100, none⟩
        5 "k" 9).jar "k" = some ⟨9, 200, some 100, none⟩ :=
  ⟨(claimC1 demoState "k" ⟨0, 1000, some 100, none⟩ rfl rfl (by decide)
      (by decide)).1,
    ((claimC1 demoState "k" ⟨0, 1000, some 100, none⟩ rfl rfl (by decide)
      (by decide)).2.2 9).1⟩

/-- C10 (implicit frame effect of a plain read): on a fresh entry, a
get with default options (extend true) returns the value but also
resets the expiry to now plus the entry's ttl (with the 5-minute
default when the ttl is falsy), re-persists the record, counts a store
write, and re-schedules the refresh timer with a freshly bumped
generation; the value, ttl and fetcherId of the entry are unchanged. -/
theorem claimC10 {V : Type} [DecidableEq V] (s : St V) (k : String)
    (e : Entry V) (ho : s.online = true) (hj : mget s.jar k = some e)
    (hfresh : ¬ s.now > e.expiry) :
    (getCore s k true false).2 = some e.value ∧
    mget (getCore s k true false).1.jar k =
      some { e with expiry := s.now + jsOr e.ttl defaultTTL } ∧
    mget (getCore s k true false).1.store k =
      some ⟨e.value, s.now + jsOr e.ttl defaultTTL, e.ttl, e.fetcherId⟩ ∧
    (getCore s k true false).1.storeOps = s.storeOps + 1 ∧
    mget (getCore s k true false).1.timers k =
      some ((mget s.gens k).getD 0 + 1,
        s.now + (jsOr e.ttl defaultTTL - jsOr e.ttl defaultTTL / 10)) := by
  have hred : getCore s k true false =
      (scheduleRefresh
        { touchKey s k with
          jar := mset s.jar k { e with
            expiry := s.now + jsOr e.ttl defaultTTL },
          store := mset s.store k
            ⟨e.value, s.now + jsOr e.ttl defaultTTL, e.ttl, e.fetcherId⟩,
          storeOps := s.storeOps + 1 }
        k (s.now + jsOr e.ttl defaultTTL), some e.value) := by
    simp [getCore, hj, hfresh]
  rw [hred]
  have hT : 0 < jsOr e.ttl defaultTTL :=
    jsOr_pos e.ttl defaultTTL (by norm_num [defaultTTL])
  have hdiv : jsOr e.ttl defaultTTL / 10 < jsOr e.ttl defaultTTL :=
    Nat.div_lt_self hT (by norm_num)
  refine ⟨rfl, ?_, ?_, ?_, ?_⟩
  · rw [scheduleRefresh_jar]
    simp
  · rw [scheduleRefresh_store]
    simp
  · rw [scheduleRefresh_storeOps]
  · rw [scheduleRefresh_timersGet_self _ _ _
      ({ e with expiry := s.now + jsOr e.ttl defaultTTL })
      (by simp) (by simpa using ho)
      (by simp only [touchKey_now]; omega)]
    simp only [touchKey_now, touchKey_gens]
    congr 2
    omega

/-- C10 (witness): the frame effect of a plain get on the demo state:
the stale-free entry value is returned and the expiry is reset to
now plus ttl. -/
theorem claimC10_witness :
    (getCore demoState "k" true false).2 = some 0 ∧
    mget (getCore demoState "k" true false).1.jar "k" =
      some ⟨0, 200, some 100, none⟩ :=
  ⟨(claimC10 demoState "k" ⟨0, 1000, some 100, none⟩ rfl (by decide)
      (by decide)).1,
    (claimC10 demoState "k" ⟨0, 1000, some 100, none⟩ rfl (by decide)
      (by decide)).2.1⟩

/-- C7: stale-while-revalidate.  On an expired entry with a bound
refresher, get(k, extend and staleWhileRevalidate) returns the old
value immediately, removes nothing (the jar is untouched; only the
access index and the queued fire-and-forget refresh call change), and
when the queued refresh later resolves successfully with a fresh
value, the entry holds that fresh value. -/
theorem claimC7 {V : Type} [DecidableEq V] (s : St V) (k : String)
    (e : Entry V) (t : Nat) (hms : s.maxSize = none)
    (ho : s.online = true) (hd : s.destroyed = false)
    (hj : mget s.jar k = some e) (hexp : s.now > e.expiry)
    (hr : mget s.refreshers k = some t) :
    (getCore s k true true).2 = some e.value ∧
    (getCore s k true true).1.jar = s.jar ∧
    (getCore s k true true).1.pending =
      s.pending ++ [(k, mget s.gens k)] ∧
    (∀ fv : V,
      (mget (refreshRun (getCore s k true true).1 k
          (mget (getCore s k true true).1.gens k) (some fv) none).1.jar
        k).map (fun en => en.value) = some fv) := by
  have hred : getCore s k true true =
      ({ touchKey s k with pending := s.pending ++ [(k, mget s.gens k)] },
        some e.value) := by
    simp [getCore, hj, hexp, hr]
  rw [hred]
  refine ⟨rfl, rfl, rfl, ?_⟩
  intro fv
  set s' : St V :=
    { touchKey s k with pending := s.pending ++ [(k, mget s.gens k)] }
    with hs'
  have hj' : mget s'.jar k = some e := hj
  have hr' : mget s'.refreshers k = some t := hr
  have ho' : s'.online = true := ho
  have hd' : s'.destroyed = false := hd
  have hms' : s'.maxSize = none := hms
  have hpre : refreshPre s' k (mget s'.gens k) = some (e, t) := by
    unfold refreshPre
    rw [hj', hr']
    simp [ho]
  unfold refreshRun
  rw [hpre]
  dsimp only
  have hpost : refreshPostOk s' k e t (mget s'.gens k) fv =
      setCore s' k fv e.ttl (refreshFarg e.fetcherId t) := by
    unfold refreshPostOk
    rw [if_neg (by simp [hd]), if_neg (by simp [ho]),
      if_neg (by simp [hj]), if_neg (by simp)]
  rw [hpost]
  rw [setCore_jarGet_self _ _ _ _ _ hms']
  simp

/-- C7 (witness): stale-while-revalidate on an expired demo entry:
the stale value 0 is returned and the jar entry survives the read. -/
theorem claimC7_witness :
    (getCore { demoState with now := 2000 } "k" true true).2 = some 0 ∧
    (getCore { demoState with now := 2000 } "k" true true).1.jar =
      ({ demoState with now := 2000 } : St Nat).jar :=
  ⟨(claimC7 { demoState with now := 2000 } "k" ⟨0, 1000, some 100, none⟩ 1
      rfl rfl rfl (by decide) (by decide) (by decide)).1,
    (claimC7 { demoState with now := 2000 } "k" ⟨0, 1000, some 100, none⟩ 1
      rfl rfl rfl (by decide) (by decide) (by decide)).2.1⟩

end Claims

end Biscuit
